import Mathlib

/-!
Verification of the Applesauce front-end recording layer.

The development shallowly embeds three source units:

* `Gateway`  — the remote command wrappers of `src/lib/tauri.js`
  (`getInvoke`, `tauriInvoke` and the fifteen exported command helpers);
* `Recorder` — the recording session component embedded in the same file
  (`startRecording`, `pauseRecording`, `resumeRecording`, `stopRecording`,
  the timer, the level meter and `blobToBase64`), modelled as a state
  machine driven by user and platform events, every step also reporting
  the list of adapter/persistence actions it performs;
* `App`      — the mock-mode component of `src/App.jsx`
  (`handleRecordStart`, `toggleMock`).
-/

namespace Applesauce

namespace Gateway

/-- Environment of the gateway: the ambient desktop-host flag (`isTauri`)
and the external process reached through the bridge, modelled as an opaque
result function. -/
structure GEnv where
  isTauri : Bool
  bridge : String → List (String × String) → Except String String

/-- Failure categories of a gateway call: the bridge is absent
(`transportUnavailable`, carrying the thrown message), or the external
process failed (`remote`). -/
inductive GErr
  | transportUnavailable (msg : String)
  | remote (e : String)
deriving DecidableEq

/-- Observable external interactions of a gateway call: the dynamic import
of the Tauri API module, and an actual invocation of the bridge. -/
inductive GEff
  | dynImport
  | bridgeCall (cmd : String) (args : List (String × String))
deriving DecidableEq

/-- The message of the error thrown when no desktop bridge is present. -/
def unavailableMsg : String :=
  "Tauri API not available in the web preview. Run `npm run tauri dev` and use the desktop window."

/-- `getInvoke` of `src/lib/tauri.js`: outside Tauri it returns a function
that throws; inside Tauri it dynamically imports the API module and returns
the real `invoke`.  The returned function reports the effects its own
invocation performs; the second component lists the effects of `getInvoke`
itself. -/
def getInvoke (env : GEnv) :
    (String → List (String × String) → Except GErr String × List GEff) × List GEff :=
  if env.isTauri then
    ((fun cmd args =>
        ((match env.bridge cmd args with
          | Except.ok r => Except.ok r
          | Except.error e => Except.error (GErr.remote e)),
         [GEff.bridgeCall cmd args])),
     [GEff.dynImport])
  else
    ((fun _ _ => (Except.error (GErr.transportUnavailable unavailableMsg), [])), [])

/-- `tauriInvoke(cmd, args)` of `src/lib/tauri.js`: awaits `getInvoke` and
applies the obtained function. -/
def tauriInvoke (env : GEnv) (cmd : String) (args : List (String × String)) :
    Except GErr String × List GEff :=
  let gi := getInvoke env
  let r := gi.1 cmd args
  (r.1, gi.2 ++ r.2)

/-- Exported helper `startRecording`. -/
def startRecording (env : GEnv) : Except GErr String × List GEff :=
  tauriInvoke env "start_recording" []

/-- Exported helper `pauseRecording`. -/
def pauseRecording (env : GEnv) : Except GErr String × List GEff :=
  tauriInvoke env "pause_recording" []

/-- Exported helper `resumeRecording`. -/
def resumeRecording (env : GEnv) : Except GErr String × List GEff :=
  tauriInvoke env "resume_recording" []

/-- Exported helper `stopRecording`. -/
def stopRecording (env : GEnv) : Except GErr String × List GEff :=
  tauriInvoke env "stop_recording" []

/-- Exported helper `transcribeLatest`. -/
def transcribeLatest (env : GEnv) (sessionId model : String) :
    Except GErr String × List GEff :=
  tauriInvoke env "transcribe_latest" [("sessionId", sessionId), ("model", model)]

/-- Exported helper `importAudioFile`. -/
def importAudioFile (env : GEnv) (path : String) : Except GErr String × List GEff :=
  tauriInvoke env "import_audio_file" [("path", path)]

/-- Exported helper `importYoutubeAudio`. -/
def importYoutubeAudio (env : GEnv) (url : String) : Except GErr String × List GEff :=
  tauriInvoke env "import_youtube_audio" [("url", url)]

/-- Exported helper `importPdfFile`. -/
def importPdfFile (env : GEnv) (path : String) : Except GErr String × List GEff :=
  tauriInvoke env "import_pdf_file" [("path", path)]

/-- Exported helper `openStorageDir`. -/
def openStorageDir (env : GEnv) : Except GErr String × List GEff :=
  tauriInvoke env "open_storage_dir" []

/-- Exported helper `clearStorageDir`. -/
def clearStorageDir (env : GEnv) : Except GErr String × List GEff :=
  tauriInvoke env "clear_storage_dir" []

/-- Exported helper `saveApiKey`. -/
def saveApiKey (env : GEnv) (value : String) : Except GErr String × List GEff :=
  tauriInvoke env "save_api_key" [("value", value)]

/-- Exported helper `readApiKey`. -/
def readApiKey (env : GEnv) : Except GErr String × List GEff :=
  tauriInvoke env "read_api_key" []

/-- Exported helper `setPromptPreset`. -/
def setPromptPreset (env : GEnv) (value : String) : Except GErr String × List GEff :=
  tauriInvoke env "set_prompt_preset" [("value", value)]

/-- Exported helper `getPromptPreset`. -/
def getPromptPreset (env : GEnv) : Except GErr String × List GEff :=
  tauriInvoke env "get_prompt_preset" []

/-- Exported helper `openQuizlet`. -/
def openQuizlet (env : GEnv) : Except GErr String × List GEff :=
  tauriInvoke env "open_quizlet" []

/-- A plain browser environment: no desktop bridge. -/
def browserEnv : GEnv :=
  { isTauri := false, bridge := fun _ _ => Except.ok "" }

end Gateway

namespace Recorder

/-- The UI status of the Recorder component. -/
inductive Status
  | idle
  | recording
  | paused
deriving DecidableEq

/-- The platform MediaRecorder's own state. -/
inductive MRState
  | inactive
  | recording
  | paused
deriving DecidableEq

/-- The MediaRecorder object: its state and negotiated MIME type. -/
structure MediaRec where
  state : MRState
  mimeType : String
deriving DecidableEq

/-- A binary blob: MIME type plus bytes. -/
structure Blob where
  type : String
  bytes : List Nat

/-- The base64 alphabet. -/
def b64Chars : List Char :=
  "ABCDEFGHIJKLMNOPQRSTUVWXYZabcdefghijklmnopqrstuvwxyz0123456789+/".toList

/-- One base64 digit. -/
def b64Char (n : Nat) : Char := b64Chars.getD n 'A'

/-- Base64 encoding of a byte list, three bytes to four characters with
`=` padding (RFC 4648, the encoding produced by `FileReader`). -/
def b64Aux : List Nat → List Char
  | [] => []
  | [a] => [b64Char (a / 4), b64Char (a % 4 * 16), '=', '=']
  | [a, b] => [b64Char (a / 4), b64Char (a % 4 * 16 + b / 16), b64Char (b % 16 * 4), '=']
  | a :: b :: c :: rest =>
      b64Char (a / 4) :: b64Char (a % 4 * 16 + b / 16) ::
        b64Char (b % 16 * 4 + c / 64) :: b64Char (c % 64) :: b64Aux rest

/-- Base64 encoding as a string. -/
def base64Encode (bs : List Nat) : String := String.mk (b64Aux bs)

/-- Whether `p` is an initial segment of `l` (character lists). -/
def isPref : List Char → List Char → Bool
  | [], _ => true
  | _ :: _, [] => false
  | a :: as, b :: bs => a == b && isPref as bs

/-- Whether `p` occurs inside `l` (character lists). -/
def hasSub (p : List Char) : List Char → Bool
  | [] => isPref p []
  | s :: rest => isPref p (s :: rest) || hasSub p rest

/-- JavaScript `s.includes(pat)`. -/
def strContains (s pat : String) : Bool := hasSub pat.toList s.toList

/-- The file-extension hint computed in `finalize`: `m4a` when the MIME
type contains `mp4` or `m4a`, otherwise `webm` (both remaining ternary
branches of the source produce `webm`). -/
def extHint (mime : String) : String :=
  if strContains mime "mp4" || strContains mime "m4a" then "m4a"
  else if strContains mime "webm" then "webm"
  else "webm"

/-- `blobToBase64` of the Recorder component: `FileReader.readAsDataURL`,
whose result is the data URL `data:<type>;base64,<base64 of the bytes>`. -/
def blobToBase64 (b : Blob) : String :=
  "data:" ++ b.type ++ ";base64," ++ base64Encode b.bytes

/-- Peak of a time-domain frame: the loop of `startMeter` computes
`max |data[i] - 128|` over the frame. -/
def peakOf (data : List Nat) : Nat :=
  data.foldl (fun p b => max p (Int.natAbs ((b : Int) - 128))) 0

/-- The level written by the meter loop:
`Math.min(100, Math.round((peak / 128) * 100))`.  For `peak ≤ 3216·…`
the JavaScript double computation is exact and `Math.round` is
floor-of-plus-half, i.e. `(peak * 25 + 16) / 32` in integer division. -/
def sampleLevel (data : List Nat) : Nat :=
  min 100 ((peakOf data * 25 + 16) / 32)

/-- Concatenation of the accumulated chunks (`new Blob(chunksRef.current)`). -/
def joinChunks : List (List Nat) → List Nat
  | [] => []
  | c :: r => c ++ joinChunks r

/-- The mutable state of the Recorder component: React state
(`status`, `elapsed`, `level`, `savingPath`) and the refs
(`timerRef` as the anchor captured by `startTimer`'s interval closure,
`rafRef` as `meterOn`, the audio-resource refs as booleans,
`chunksRef`, `mediaRecorderRef`). -/
structure RState where
  status : Status
  elapsed : Int
  level : Nat
  savingPath : Option String
  timerStarted : Option Int
  meterOn : Bool
  analyserOn : Bool
  streamOn : Bool
  ctxOn : Bool
  chunks : List (List Nat)
  mr : Option MediaRec

/-- Events driving the Recorder: the four user actions (stop carrying the
platform's final `dataavailable` flush and the result of the
`save_audio_base64` call), plus the platform callbacks (timeslice
`dataavailable`, the 200 ms timer tick at wall-clock time `t`, and one
iteration of the meter's animation-frame loop). -/
inductive REvent
  | start (t : Int) (mime : String)
  | pause
  | resume (t : Int)
  | stop (fc : List Nat) (save : Except String String)
  | dataAvail (bytes : List Nat)
  | tick (t : Int)
  | meterFrame (frame : List Nat)

/-- Actions performed by a step, annotated where relevant with the
MediaRecorder state at the moment of the call. -/
inductive Act
  | acquire
  | mrStart (m : MRState)
  | mrPause (m : MRState)
  | mrResume (m : MRState)
  | mrStop (m : MRState)
  | clearChunks
  | append (bytes : List Nat)
  | save (payload : String) (ext : String)

/-- `startRecording` of the Recorder: `setupAudio()` (acquire the stream,
build context/analyser, construct a fresh inactive MediaRecorder with the
negotiated MIME type), clear the chunk accumulator, `mr.start(250)`,
set status `recording`, `startTimer()` (anchor `t - elapsed`),
`startMeter()`. -/
def startRecording (t : Int) (mime : String) (s : RState) : RState × List Act :=
  ({ s with
      streamOn := true, ctxOn := true, analyserOn := true,
      mr := some { state := MRState.recording, mimeType := mime },
      chunks := [],
      status := Status.recording,
      timerStarted := some (t - s.elapsed),
      meterOn := true },
   [Act.acquire, Act.clearChunks, Act.mrStart MRState.inactive])

/-- `pauseRecording`: guarded by `mediaRecorderRef.current?.state ===
"recording"`; calls `mr.pause()`, sets status `paused`, stops the timer. -/
def pauseRecording (s : RState) : RState × List Act :=
  match s.mr with
  | some m =>
      if m.state = MRState.recording then
        ({ s with
            mr := some { m with state := MRState.paused },
            status := Status.paused,
            timerStarted := none },
         [Act.mrPause MRState.recording])
      else (s, [])
  | none => (s, [])

/-- `resumeRecording`: guarded by `state === "paused"`; calls
`mr.resume()`, sets status `recording`, restarts the timer anchored at
`t - elapsed`. -/
def resumeRecording (t : Int) (s : RState) : RState × List Act :=
  match s.mr with
  | some m =>
      if m.state = MRState.paused then
        ({ s with
            mr := some { m with state := MRState.recording },
            status := Status.recording,
            timerStarted := some (t - s.elapsed) },
         [Act.mrResume MRState.paused])
      else (s, [])
  | none => (s, [])

/-- `finalize` of `stopRecording`: stop and reset the timer, build the blob
from the accumulated chunks (MIME type defaulting to `audio/webm`), clear
the accumulator, base64-encode via `blobToBase64`, issue the single
`save_audio_base64` call (success stores the returned path, failure stores
the error text), `teardownAudio()` (meter off, level 0, release stream,
context and analyser), set status `idle`. -/
def finalizeR (s : RState) (mime0 : String) (save : Except String String) :
    RState × List Act :=
  let mime := if mime0 = "" then "audio/webm" else mime0
  let payload := blobToBase64 { type := mime, bytes := joinChunks s.chunks }
  ({ s with
      timerStarted := none,
      elapsed := 0,
      chunks := [],
      savingPath := some (match save with
        | Except.ok p => p
        | Except.error e => "Save failed: " ++ e),
      meterOn := false,
      level := 0,
      analyserOn := false, streamOn := false, ctxOn := false,
      status := Status.idle },
   [Act.clearChunks, Act.save payload (extHint mime)])

/-- `stopRecording`: resolves immediately when no recorder exists; when the
recorder is active it calls `mr.stop()` (the platform flushes a final
`dataavailable`, possibly empty, before firing `stop`) and then runs
`finalize`; when the recorder is already inactive it runs `finalize`
directly. -/
def stopRecording (fc : List Nat) (save : Except String String) (s : RState) :
    RState × List Act :=
  match s.mr with
  | none => (s, [])
  | some m =>
      if m.state = MRState.inactive then finalizeR s m.mimeType save
      else
        let s1 := { s with mr := some { m with state := MRState.inactive } }
        let s2 := if fc = [] then s1 else { s1 with chunks := s1.chunks ++ [fc] }
        let fr := finalizeR s2 m.mimeType save
        (fr.1,
         Act.mrStop m.state :: ((if fc = [] then [] else [Act.append fc]) ++ fr.2))

/-- The `ondataavailable` handler installed by `setupAudio`: pushes the
chunk whenever it is non-empty; no handler exists without a recorder. -/
def ondataavailable (bytes : List Nat) (s : RState) : RState × List Act :=
  match s.mr with
  | none => (s, [])
  | some _ =>
      if bytes = [] then (s, [])
      else ({ s with chunks := s.chunks ++ [bytes] }, [Act.append bytes])

/-- One firing of the interval installed by `startTimer`:
`setElapsed(Date.now() - started)`; nothing fires while the timer is
stopped. -/
def timerTick (t : Int) (s : RState) : RState × List Act :=
  match s.timerStarted with
  | some a => ({ s with elapsed := t - a }, [])
  | none => (s, [])

/-- One iteration of the meter's animation-frame loop: recompute the level
from the current frame; the loop runs only while scheduled. -/
def meterFrame (frame : List Nat) (s : RState) : RState × List Act :=
  if s.meterOn then ({ s with level := sampleLevel frame }, []) else (s, [])

/-- The event-step function of the Recorder. -/
def stepR (s : RState) : REvent → RState × List Act
  | REvent.start t mime => startRecording t mime s
  | REvent.pause => pauseRecording s
  | REvent.resume t => resumeRecording t s
  | REvent.stop fc save => stopRecording fc save s
  | REvent.dataAvail b => ondataavailable b s
  | REvent.tick t => timerTick t s
  | REvent.meterFrame f => meterFrame f s

/-- Run a list of events, collecting all performed actions. -/
def runActs : RState → List REvent → RState × List Act
  | s, [] => (s, [])
  | s, e :: es =>
      ((runActs (stepR s e).1 es).1, (stepR s e).2 ++ (runActs (stepR s e).1 es).2)

/-- Whether a user event respects the state machine of spec §4.2 in the
given status (`start` from `idle`, `pause` from `recording`, `resume` from
`paused`, `stop` from `recording` or `paused`); platform callbacks are
unconstrained. -/
def ctlOK (st : Status) : REvent → Bool
  | REvent.start _ _ => st = Status.idle
  | REvent.pause => st = Status.recording
  | REvent.resume _ => st = Status.paused
  | REvent.stop _ _ => st = Status.recording || st = Status.paused
  | _ => true

/-- Whether an event sequence respects the state machine along its run. -/
def validSeq : RState → List REvent → Bool
  | _, [] => true
  | s, e :: es => ctlOK s.status e && validSeq (stepR s e).1 es

/-- Validity of an adapter call for the MediaRecorder state at the moment
it is made: `start()` requires `inactive`, `pause()` requires `recording`,
`resume()` requires `paused`, `stop()` requires a non-`inactive` state. -/
def callOK : Act → Bool
  | Act.mrStart m => m = MRState.inactive
  | Act.mrPause m => m = MRState.recording
  | Act.mrResume m => m = MRState.paused
  | Act.mrStop m => !(m = MRState.inactive)
  | _ => true

/-- Number of accumulator clears in an action list. -/
def countClears : List Act → Nat
  | [] => 0
  | Act.clearChunks :: r => countClears r + 1
  | _ :: r => countClears r

/-- The persistence calls (payload, extension hint) in an action list. -/
def savedPayloads : List Act → List (String × String)
  | [] => []
  | Act.save p e :: r => (p, e) :: savedPayloads r
  | _ :: r => savedPayloads r

/-- The initial component state. -/
def initState : RState :=
  { status := Status.idle, elapsed := 0, level := 0, savingPath := none,
    timerStarted := none, meterOn := false, analyserOn := false,
    streamOn := false, ctxOn := false, chunks := [], mr := none }

/-- A full session respecting the state machine. -/
def demoSeq : List REvent :=
  [REvent.start 0 "audio/webm", REvent.tick 400, REvent.pause,
   REvent.resume 1000, REvent.stop [] (Except.ok "rec.webm")]

/-- A minimal completed session: start, one timeslice chunk, stop. -/
def sessionRun : List REvent :=
  [REvent.start 0 "audio/webm", REvent.dataAvail [1, 2], REvent.stop [] (Except.ok "p")]

/-- A completed session whose accumulated bytes are `[1, 2, 3]`. -/
def sessionRun2 : List REvent :=
  [REvent.start 0 "audio/webm", REvent.dataAvail [1, 2, 3],
   REvent.stop [] (Except.ok "p")]

/-- A mid-recording state used to instantiate the theorems. -/
def recSession : RState :=
  { status := Status.recording, elapsed := 1200, level := 37, savingPath := none,
    timerStarted := some 0, meterOn := true, analyserOn := true,
    streamOn := true, ctxOn := true, chunks := [[1, 2]],
    mr := some { state := MRState.recording, mimeType := "audio/webm" } }

/-- A paused session state used to instantiate the theorems. -/
def pausedSession : RState :=
  { status := Status.paused, elapsed := 1000, level := 42, savingPath := none,
    timerStarted := none, meterOn := true, analyserOn := true,
    streamOn := true, ctxOn := true, chunks := [[7]],
    mr := some { state := MRState.paused, mimeType := "audio/mp4" } }

/-- A state just after a completed stop, used to instantiate the theorems. -/
def idleStopped : RState :=
  { status := Status.idle, elapsed := 0, level := 0, savingPath := some "p",
    timerStarted := none, meterOn := false, analyserOn := false,
    streamOn := false, ctxOn := false, chunks := [],
    mr := some { state := MRState.inactive, mimeType := "audio/webm" } }

end Recorder

namespace App

/-- The `loading` state object of `App.jsx`. -/
structure Loading where
  recording : Bool
  transcribing : Bool
  sending : Bool
deriving DecidableEq

/-- The React state of the `App` component of `App.jsx`. -/
structure AppState where
  sessionId : String
  status : String
  transcript : String
  response : String
  selectedPreset : String
  presets : List (String × String)
  loading : Loading
  mock : Bool
  isRecording : Bool
  isPaused : Bool
  sidebarOpen : Bool
deriving DecidableEq

/-- `handleRecordStart` of `App.jsx`: sets `loading.recording`,
`isRecording := true`, `isPaused := false`; in mock mode stores a random
session id and a mock status; otherwise posts `/record/start`, and on
failure only sets the status text `Failed to start recording.` — the
`isRecording` flag is not reverted.  `fetch` is the outcome of the post
(`ok` carries `json.sessionId || ""`). -/
def handleRecordStart (fetch : Except Unit String) (randId : String)
    (s : AppState) : AppState :=
  let s1 := { s with
    loading := { s.loading with recording := true },
    isRecording := true, isPaused := false }
  if s.mock then
    { s1 with
        sessionId := randId,
        status := "Recording started (mock).",
        loading := { s1.loading with recording := false } }
  else
    match fetch with
    | Except.ok sid =>
        { s1 with
            sessionId := sid,
            status := "Recording started.",
            loading := { s1.loading with recording := false } }
    | Except.error _ =>
        { s1 with
            status := "Failed to start recording.",
            loading := { s1.loading with recording := false } }

/-- `toggleMock` of `App.jsx`: flips `mock` and clears `status`,
`transcript`, `response` and `selectedPreset`. -/
def toggleMock (s : AppState) : AppState :=
  { s with
      mock := !s.mock,
      status := "", transcript := "", response := "", selectedPreset := "" }

/-- An idle non-mock application state. -/
def idleRealApp : AppState :=
  { sessionId := "", status := "", transcript := "", response := "",
    selectedPreset := "", presets := [],
    loading := { recording := false, transcribing := false, sending := false },
    mock := false, isRecording := false, isPaused := false, sidebarOpen := false }

end App

/-! ## Theorems -/

namespace Gateway

/-- C2: for every Gateway action (each of the fifteen exported command
helpers), when the desktop bridge is absent the call fails with the
`TransportUnavailable` error, deterministically, and with an empty effect
list — so before any network or external-process interaction is
attempted. -/
theorem no_bridge_transport_unavailable (env : GEnv) (h : env.isTauri = false)
    (sid model path url value : String) :
    startRecording env = (Except.error (GErr.transportUnavailable unavailableMsg), []) ∧
    pauseRecording env = (Except.error (GErr.transportUnavailable unavailableMsg), []) ∧
    resumeRecording env = (Except.error (GErr.transportUnavailable unavailableMsg), []) ∧
    stopRecording env = (Except.error (GErr.transportUnavailable unavailableMsg), []) ∧
    transcribeLatest env sid model =
      (Except.error (GErr.transportUnavailable unavailableMsg), []) ∧
    importAudioFile env path =
      (Except.error (GErr.transportUnavailable unavailableMsg), []) ∧
    importYoutubeAudio env url =
      (Except.error (GErr.transportUnavailable unavailableMsg), []) ∧
    importPdfFile env path =
      (Except.error (GErr.transportUnavailable unavailableMsg), []) ∧
    openStorageDir env = (Except.error (GErr.transportUnavailable unavailableMsg), []) ∧
    clearStorageDir env = (Except.error (GErr.transportUnavailable unavailableMsg), []) ∧
    saveApiKey env value = (Except.error (GErr.transportUnavailable unavailableMsg), []) ∧
    readApiKey env = (Except.error (GErr.transportUnavailable unavailableMsg), []) ∧
    setPromptPreset env value =
      (Except.error (GErr.transportUnavailable unavailableMsg), []) ∧
    getPromptPreset env = (Except.error (GErr.transportUnavailable unavailableMsg), []) ∧
    openQuizlet env = (Except.error (GErr.transportUnavailable unavailableMsg), []) := by
  simp [startRecording, pauseRecording, resumeRecording, stopRecording,
        transcribeLatest, importAudioFile, importYoutubeAudio, importPdfFile,
        openStorageDir, clearStorageDir, saveApiKey, readApiKey,
        setPromptPreset, getPromptPreset, openQuizlet,
        tauriInvoke, getInvoke, h]

/-- C2 witness: instantiation at the concrete browser environment. -/
theorem no_bridge_transport_unavailable_witness :
    startRecording browserEnv =
      (Except.error (GErr.transportUnavailable unavailableMsg), []) ∧
    pauseRecording browserEnv =
      (Except.error (GErr.transportUnavailable unavailableMsg), []) ∧
    resumeRecording browserEnv =
      (Except.error (GErr.transportUnavailable unavailableMsg), []) ∧
    stopRecording browserEnv =
      (Except.error (GErr.transportUnavailable unavailableMsg), []) ∧
    transcribeLatest browserEnv "s1" "small" =
      (Except.error (GErr.transportUnavailable unavailableMsg), []) ∧
    importAudioFile browserEnv "a.wav" =
      (Except.error (GErr.transportUnavailable unavailableMsg), []) ∧
    importYoutubeAudio browserEnv "https://yt" =
      (Except.error (GErr.transportUnavailable unavailableMsg), []) ∧
    importPdfFile browserEnv "a.pdf" =
      (Except.error (GErr.transportUnavailable unavailableMsg), []) ∧
    openStorageDir browserEnv =
      (Except.error (GErr.transportUnavailable unavailableMsg), []) ∧
    clearStorageDir browserEnv =
      (Except.error (GErr.transportUnavailable unavailableMsg), []) ∧
    saveApiKey browserEnv "k" =
      (Except.error (GErr.transportUnavailable unavailableMsg), []) ∧
    readApiKey browserEnv =
      (Except.error (GErr.transportUnavailable unavailableMsg), []) ∧
    setPromptPreset browserEnv "p" =
      (Except.error (GErr.transportUnavailable unavailableMsg), []) ∧
    getPromptPreset browserEnv =
      (Except.error (GErr.transportUnavailable unavailableMsg), []) ∧
    openQuizlet browserEnv =
      (Except.error (GErr.transportUnavailable unavailableMsg), []) :=
  no_bridge_transport_unavailable browserEnv rfl "s1" "small" "a.wav" "https://yt" "k"

end Gateway

namespace App

/-- C10: toggling mock mode clears `status`, `transcript`, `response` and
`selectedPreset`, flips `mock`, and leaves `sessionId`, `isRecording`,
`isPaused`, `loading` and `sidebarOpen` unchanged. -/
theorem toggleMock_clears_and_preserves (s : AppState) :
    (toggleMock s).status = "" ∧
    (toggleMock s).transcript = "" ∧
    (toggleMock s).response = "" ∧
    (toggleMock s).selectedPreset = "" ∧
    (toggleMock s).mock = !s.mock ∧
    (toggleMock s).sessionId = s.sessionId ∧
    (toggleMock s).isRecording = s.isRecording ∧
    (toggleMock s).isPaused = s.isPaused ∧
    (toggleMock s).loading = s.loading ∧
    (toggleMock s).sidebarOpen = s.sidebarOpen := by
  simp [toggleMock]

/-- C3 counterexample: starting from the idle non-mock state with a failing
acquisition/start call, the session state does not remain idle — the
handler sets `isRecording` to `true` before the attempt and never reverts
it, refuting the claim that the state remains `idle`. -/
theorem start_failure_claim_cex :
    idleRealApp.isRecording = false ∧
      (handleRecordStart (Except.error ()) "x" idleRealApp).isRecording = true := by
  constructor
  · rfl
  · rfl

/-- C3 amended: when start is invoked with mock mode off and the start call
fails, the error is reported as the status text
`Failed to start recording.` and the loading flag is cleared, but
`isRecording` is left `true` (the state does not remain idle);
`sessionId` is unchanged. -/
theorem start_failure_reports_not_idle (s : AppState) (randId : String)
    (h : s.mock = false) :
    (handleRecordStart (Except.error ()) randId s).status =
        "Failed to start recording." ∧
    (handleRecordStart (Except.error ()) randId s).isRecording = true ∧
    (handleRecordStart (Except.error ()) randId s).isPaused = false ∧
    (handleRecordStart (Except.error ()) randId s).loading.recording = false ∧
    (handleRecordStart (Except.error ()) randId s).sessionId = s.sessionId := by
  simp [handleRecordStart, h]

/-- C3 amended witness: instantiation at the idle non-mock state. -/
theorem start_failure_reports_not_idle_witness :
    (handleRecordStart (Except.error ()) "x" idleRealApp).status =
        "Failed to start recording." ∧
    (handleRecordStart (Except.error ()) "x" idleRealApp).isRecording = true ∧
    (handleRecordStart (Except.error ()) "x" idleRealApp).isPaused = false ∧
    (handleRecordStart (Except.error ()) "x" idleRealApp).loading.recording = false ∧
    (handleRecordStart (Except.error ()) "x" idleRealApp).sessionId =
        idleRealApp.sessionId :=
  start_failure_reports_not_idle idleRealApp "x" rfl

end App

namespace Recorder

/-- C1: invoking stop on a session whose recorder exists, from status
`recording` or `paused`, always yields status `idle` and elapsed time `0`,
whether the `save_audio_base64` call succeeds or fails. -/
theorem stop_always_idle_zero (s : RState) (m : MediaRec) (fc : List Nat)
    (save : Except String String) (hm : s.mr = some m)
    (hs : s.status = Status.recording ∨ s.status = Status.paused) :
    (stopRecording fc save s).1.status = Status.idle ∧
      (stopRecording fc save s).1.elapsed = 0 := by
  rcases hs with hs | hs <;>
    · simp only [stopRecording, hm]
      split <;> simp [finalizeR]

/-- C1 witness: a recording session stopped while persistence fails. -/
theorem stop_always_idle_zero_witness :
    (stopRecording [] (Except.error "disk full") recSession).1.status = Status.idle ∧
      (stopRecording [] (Except.error "disk full") recSession).1.elapsed = 0 :=
  stop_always_idle_zero recSession
    { state := MRState.recording, mimeType := "audio/webm" }
    [] (Except.error "disk full") rfl (Or.inl rfl)

/-- C7: resuming from `paused` keeps the accumulated elapsed value
unchanged; a later tick at time `t'` reports exactly the old value plus the
time since resume, so the paused interval contributes nothing; and while
paused (timer stopped) a tick changes nothing. -/
theorem resume_preserves_elapsed (s : RState) (m : MediaRec) (t t' u : Int)
    (hm : s.mr = some m) (hp : m.state = MRState.paused)
    (ht : s.timerStarted = none) :
    (stepR s (REvent.resume t)).1.elapsed = s.elapsed ∧
    (stepR (stepR s (REvent.resume t)).1 (REvent.tick t')).1.elapsed =
        s.elapsed + (t' - t) ∧
    (stepR s (REvent.tick u)).1.elapsed = s.elapsed := by
  refine ⟨?_, ?_, ?_⟩
  · simp [stepR, resumeRecording, hm, hp]
  · simp [stepR, resumeRecording, timerTick, hm, hp]
    omega
  · simp [stepR, timerTick, ht]

/-- C7 witness: a session paused at elapsed 1000, resumed at time 5000 and
ticked at 5600 reports 1600, and ticks while paused leave 1000. -/
theorem resume_preserves_elapsed_witness :
    (stepR pausedSession (REvent.resume 5000)).1.elapsed = pausedSession.elapsed ∧
    (stepR (stepR pausedSession (REvent.resume 5000)).1 (REvent.tick 5600)).1.elapsed =
        pausedSession.elapsed + (5600 - 5000) ∧
    (stepR pausedSession (REvent.tick 5300)).1.elapsed = pausedSession.elapsed :=
  resume_preserves_elapsed pausedSession
    { state := MRState.paused, mimeType := "audio/mp4" }
    5000 5600 5300 rfl rfl rfl

/-- C8: for every audio frame of bytes in 0..255 processed by the meter
loop while the meter runs, the level written is `sampleLevel frame`, an
integer in the range 0..100. -/
theorem sample_level_in_range (s : RState) (frame : List Nat)
    (hmeter : s.meterOn = true) (_hbytes : ∀ b ∈ frame, b ≤ 255) :
    (stepR s (REvent.meterFrame frame)).1.level = sampleLevel frame ∧
      sampleLevel frame ≤ 100 := by
  constructor
  · simp [stepR, meterFrame, hmeter]
  · exact Nat.min_le_left 100 _

/-- C8 witness: the extreme frame `[0, 255, 128]` yields level 100. -/
theorem sample_level_in_range_witness :
    (stepR recSession (REvent.meterFrame [0, 255, 128])).1.level =
        sampleLevel [0, 255, 128] ∧
      sampleLevel [0, 255, 128] ≤ 100 :=
  sample_level_in_range recSession [0, 255, 128] rfl (by decide)

/-- C9: after stop completes (resources released) the sampled level is `0`
and the meter is off; and from any state with level `0` and meter off,
every event other than a new start keeps the level at `0` and the meter
off. -/
theorem level_zero_after_stop :
    (∀ s m fc save, s.mr = some m →
      (stopRecording fc save s).1.level = 0 ∧
        (stopRecording fc save s).1.meterOn = false) ∧
    (∀ s e, s.level = 0 → s.meterOn = false →
      (∀ t mime, e ≠ REvent.start t mime) →
      (stepR s e).1.level = 0 ∧ (stepR s e).1.meterOn = false) := by
  constructor
  · intro s m fc save hm
    simp only [stopRecording, hm]
    split <;> simp [finalizeR]
  · intro s e hl hme hns
    cases e with
    | start t mime => exact absurd rfl (hns t mime)
    | pause =>
        simp only [stepR, pauseRecording]
        split <;> (try split) <;> simp [hl, hme]
    | resume t =>
        simp only [stepR, resumeRecording]
        split <;> (try split) <;> simp [hl, hme]
    | stop fc save =>
        simp only [stepR, stopRecording]
        split <;> (try split) <;> simp [finalizeR, hl, hme]
    | dataAvail b =>
        simp only [stepR, ondataavailable]
        split <;> (try split) <;> simp [hl, hme]
    | tick t =>
        simp only [stepR, timerTick]
        split <;> simp [hl, hme]
    | meterFrame f =>
        simp [stepR, meterFrame, hme, hl]

/-- C9 witness: a paused session stopped with a failing save ends with
level 0 and meter off, and a later meter frame on the stopped state leaves
the level at 0. -/
theorem level_zero_after_stop_witness :
    ((stopRecording [] (Except.error "boom") pausedSession).1.level = 0 ∧
      (stopRecording [] (Except.error "boom") pausedSession).1.meterOn = false) ∧
    ((stepR idleStopped (REvent.meterFrame [200, 9])).1.level = 0 ∧
      (stepR idleStopped (REvent.meterFrame [200, 9])).1.meterOn = false) :=
  ⟨level_zero_after_stop.1 pausedSession
      { state := MRState.paused, mimeType := "audio/mp4" }
      [] (Except.error "boom") rfl,
   level_zero_after_stop.2 idleStopped (REvent.meterFrame [200, 9]) rfl rfl
      (fun _ _ h => REvent.noConfusion h)⟩

/-- Every single step emits only adapter calls valid for the MediaRecorder
state at the moment of the call: the source guards `pause`/`resume` on the
recorder's state, `stop` on it being active, and `start` acts on a freshly
constructed inactive recorder. -/
theorem stepR_acts_ok (s : RState) (e : REvent) :
    ((stepR s e).2.all callOK) = true := by
  cases e with
  | start t mime => rfl
  | pause =>
      rcases hsm : s.mr with _ | m
      · simp [stepR, pauseRecording, hsm]
      · simp only [stepR, pauseRecording, hsm]
        by_cases hst : m.state = MRState.recording <;> simp [hst, callOK]
  | resume t =>
      rcases hsm : s.mr with _ | m
      · simp [stepR, resumeRecording, hsm]
      · simp only [stepR, resumeRecording, hsm]
        by_cases hst : m.state = MRState.paused <;> simp [hst, callOK]
  | stop fc save =>
      rcases hsm : s.mr with _ | m
      · simp [stepR, stopRecording, hsm]
      · simp only [stepR, stopRecording, hsm]
        by_cases hst : m.state = MRState.inactive
        · simp [hst, finalizeR, callOK]
        · by_cases hfc : fc = [] <;>
            simp [hst, hfc, finalizeR, callOK, List.all_append]
  | dataAvail b =>
      rcases hsm : s.mr with _ | m
      · simp [stepR, ondataavailable, hsm]
      · simp only [stepR, ondataavailable, hsm]
        by_cases hb : b = [] <;> simp [hb, callOK]
  | tick t =>
      rcases hts : s.timerStarted with _ | a <;> simp [stepR, timerTick, hts]
  | meterFrame f =>
      by_cases hmo : s.meterOn = true <;> simp [stepR, meterFrame, hmo]

/-- All adapter calls along any run are valid. -/
theorem runActs_acts_ok (s : RState) (evs : List REvent) :
    ((runActs s evs).2.all callOK) = true := by
  induction evs generalizing s with
  | nil => rfl
  | cons e es ih =>
      simp [runActs, List.all_append, stepR_acts_ok, ih]

/-- C4: for every sequence of start, pause, resume, stop respecting the
state machine, the controller never invokes an adapter operation invalid
for the current recorder state — `pause()` is only called while the
recorder is `recording` and `resume()` only while it is `paused` (the
source guards make this hold even without the sequence restriction). -/
theorem adapter_calls_always_valid (evs : List REvent)
    (_hv : validSeq initState evs = true) :
    ((runActs initState evs).2.all callOK) = true :=
  runActs_acts_ok initState evs

/-- C4 witness: the full session start → pause → resume → stop. -/
theorem adapter_calls_always_valid_witness :
    validSeq initState demoSeq = true ∧
      ((runActs initState demoSeq).2.all callOK) = true :=
  ⟨by decide, adapter_calls_always_valid demoSeq (by decide)⟩

/-- C5 counterexample: in the completed session `sessionRun` (start, one
chunk, stop) the accumulator is cleared twice — once by `startRecording`
and once more inside `finalize` — refuting the claim that it is cleared
exactly once per session, at the moment a new recording starts. -/
theorem accumulator_clear_claim_cex :
    countClears (runActs initState sessionRun).2 = 2 ∧
      countClears (runActs initState sessionRun).2 ≠ 1 := by
  decide

/-- C5 amended: the accumulator grows only through a non-empty
`dataavailable` delivery while a recorder exists (the handler never
consults the UI status, so the final flush of a stop from `paused` can
append while the status is still `paused`); it is cleared once by every
start and once more by every stop's `finalize` — twice per completed
session — and by no other event. -/
theorem chunks_append_clear_discipline :
    (∀ s e, (stepR s e).1.chunks.length > s.chunks.length →
      s.mr.isSome = true ∧ ∃ b, e = REvent.dataAvail b ∧ b ≠ []) ∧
    (∀ s t mime, countClears (stepR s (REvent.start t mime)).2 = 1) ∧
    (∀ s fc save m, s.mr = some m →
      countClears (stepR s (REvent.stop fc save)).2 = 1) ∧
    (∀ s e, (∀ t mime, e ≠ REvent.start t mime) →
      (∀ fc save, e ≠ REvent.stop fc save) →
      countClears (stepR s e).2 = 0) := by
  refine ⟨?_, ?_, ?_, ?_⟩
  · intro s e h
    cases e with
    | start t mime => simp [stepR, startRecording] at h
    | pause =>
        rcases hsm : s.mr with _ | m
        · simp [stepR, pauseRecording, hsm] at h
        · simp only [stepR, pauseRecording, hsm] at h
          by_cases hst : m.state = MRState.recording <;> simp [hst] at h
    | resume t =>
        rcases hsm : s.mr with _ | m
        · simp [stepR, resumeRecording, hsm] at h
        · simp only [stepR, resumeRecording, hsm] at h
          by_cases hst : m.state = MRState.paused <;> simp [hst] at h
    | stop fc save =>
        rcases hsm : s.mr with _ | m
        · simp [stepR, stopRecording, hsm] at h
        · simp only [stepR, stopRecording, hsm] at h
          by_cases hst : m.state = MRState.inactive
          · simp [hst, finalizeR] at h
          · by_cases hfc : fc = [] <;> simp [hst, hfc, finalizeR] at h
    | dataAvail b =>
        rcases hsm : s.mr with _ | m
        · simp [stepR, ondataavailable, hsm] at h
        · refine ⟨by simp [hsm], ?_⟩
          by_cases hb : b = []
          · simp [stepR, ondataavailable, hsm, hb] at h
          · exact ⟨b, rfl, hb⟩
    | tick t =>
        rcases hts : s.timerStarted with _ | a <;> simp [stepR, timerTick, hts] at h
    | meterFrame f =>
        by_cases hmo : s.meterOn = true <;> simp [stepR, meterFrame, hmo] at h
  · intro s t mime
    rfl
  · intro s fc save m hm
    simp only [stepR, stopRecording, hm]
    by_cases hst : m.state = MRState.inactive
    · simp [hst, finalizeR, countClears]
    · by_cases hfc : fc = [] <;> simp [hst, hfc, finalizeR, countClears]
  · intro s e hn1 hn2
    cases e with
    | start t mime => exact absurd rfl (hn1 t mime)
    | stop fc save => exact absurd rfl (hn2 fc save)
    | pause =>
        rcases hsm : s.mr with _ | m
        · simp [stepR, pauseRecording, hsm, countClears]
        · simp only [stepR, pauseRecording, hsm]
          by_cases hst : m.state = MRState.recording <;> simp [hst, countClears]
    | resume t =>
        rcases hsm : s.mr with _ | m
        · simp [stepR, resumeRecording, hsm, countClears]
        · simp only [stepR, resumeRecording, hsm]
          by_cases hst : m.state = MRState.paused <;> simp [hst, countClears]
    | dataAvail b =>
        rcases hsm : s.mr with _ | m
        · simp [stepR, ondataavailable, hsm, countClears]
        · simp only [stepR, ondataavailable, hsm]
          by_cases hb : b = [] <;> simp [hb, countClears]
    | tick t =>
        rcases hts : s.timerStarted with _ | a <;>
          simp [stepR, timerTick, hts, countClears]
    | meterFrame f =>
        by_cases hmo : s.meterOn = true <;>
          simp [stepR, meterFrame, hmo, countClears]

/-- C5 amended witness: a growing append step, the single clear of a start,
the single clear of a stop, and the absence of clears on pause. -/
theorem chunks_append_clear_discipline_witness :
    (recSession.mr.isSome = true ∧
      ∃ b, REvent.dataAvail [5] = REvent.dataAvail b ∧ b ≠ []) ∧
    countClears (stepR recSession (REvent.start 0 "audio/webm")).2 = 1 ∧
    countClears (stepR recSession (REvent.stop [] (Except.ok "p"))).2 = 1 ∧
    countClears (stepR recSession REvent.pause).2 = 0 :=
  ⟨chunks_append_clear_discipline.1 recSession (REvent.dataAvail [5]) (by decide),
   chunks_append_clear_discipline.2.1 recSession 0 "audio/webm",
   chunks_append_clear_discipline.2.2.1 recSession [] (Except.ok "p")
     { state := MRState.recording, mimeType := "audio/webm" } rfl,
   chunks_append_clear_discipline.2.2.2 recSession REvent.pause
     (fun _ _ h => REvent.noConfusion h) (fun _ _ h => REvent.noConfusion h)⟩

/-- C6 counterexample: stopping the completed session `sessionRun2` (whose
accumulated bytes are `[1, 2, 3]`) issues exactly one save call, but its
payload is the data URL `data:audio/webm;base64,AQID` produced by
`readAsDataURL`, not the bare base64 text `AQID` of the concatenated
chunks that the claim asserts. -/
theorem save_payload_claim_cex :
    savedPayloads (runActs initState sessionRun2).2 =
        [("data:audio/webm;base64,AQID", "webm")] ∧
      base64Encode (joinChunks [[1, 2, 3]]) = "AQID" ∧
      "data:audio/webm;base64,AQID" ≠ base64Encode (joinChunks [[1, 2, 3]]) := by
  decide

/-- C6 amended: on each stop with a recorder present, exactly one save call
is issued; its payload is the data URL `data:<mime>;base64,<data>`
containing the base64 text of the concatenated accumulated chunks
(including the final flush when the recorder was still active), with MIME
type defaulting to `audio/webm`, and the extension hint is `m4a` when the
MIME type is in the mp4/m4a family and `webm` otherwise. -/
theorem stop_saves_dataurl_payload (s : RState) (m : MediaRec) (fc : List Nat)
    (save : Except String String) (hm : s.mr = some m) :
    savedPayloads (stopRecording fc save s).2 =
      [(blobToBase64
          { type := if m.mimeType = "" then "audio/webm" else m.mimeType,
            bytes := joinChunks
              (if m.state = MRState.inactive ∨ fc = [] then s.chunks
               else s.chunks ++ [fc]) },
        extHint (if m.mimeType = "" then "audio/webm" else m.mimeType))] := by
  simp only [stopRecording, hm]
  by_cases hst : m.state = MRState.inactive
  · simp [hst, finalizeR, savedPayloads]
  · by_cases hfc : fc = [] <;>
      simp [hst, hfc, finalizeR, savedPayloads]

/-- C6 amended witness: stopping the paused mp4 session with a final flush
chunk `[4]` saves the data URL of the concatenation with hint `m4a`. -/
theorem stop_saves_dataurl_payload_witness :
    savedPayloads (stopRecording [4] (Except.ok "out.m4a") pausedSession).2 =
      [(blobToBase64
          { type := if ("audio/mp4" : String) = "" then "audio/webm" else "audio/mp4",
            bytes := joinChunks
              (if MRState.paused = MRState.inactive ∨ ([4] : List Nat) = [] then
                pausedSession.chunks
               else pausedSession.chunks ++ [[4]]) },
        extHint (if ("audio/mp4" : String) = "" then "audio/webm" else "audio/mp4"))] :=
  stop_saves_dataurl_payload pausedSession
    { state := MRState.paused, mimeType := "audio/mp4" } [4] (Except.ok "out.m4a") rfl

end Recorder

end Applesauce
